import Mathlib

/-! Remote-controlled vehicle firmware: control logic

A shallow embedding of `src/backup/main-2025-10-14.cpp`: the motor control
functions, the command dispatcher (`webSocketEvent`), the command timeout
guard of `loop`, and the Wi-Fi connect / factory fallback path.

Conventions.
* `int` values are `Int`; `unsigned long` values are `Nat`, and the
  subtractions the code performs on them are taken modulo `2^32` (`subU32`).
* Every function that touches the globals takes the `State` and returns the new
  `State` together with the list of external effects it performed, in order.
-/

namespace Esp32Car

/-! ## External effects -/

/-- Calls into the platform that are observable from outside the firmware. -/
inductive Effect where
  /-- a call of `Serial.println(msg)` -/
  | serialPrintln (msg : String)
  /-- a call of `webSocket.broadcastTXT(msg, len)` -/
  | broadcastTXT (msg : String)
  /-- a call of `delay(ms)` -/
  | delay (ms : Nat)
  /-- a call of `WiFi.mode(WIFI_STA)` -/
  | wifiModeSta
  /-- a call of `WiFi.begin()` -/
  | wifiBegin
  /-- a call of `esp_partition_find_first(APP, APP_FACTORY, NULL)` -/
  | findFactoryPartition
  /-- a call of `esp_ota_set_boot_partition(factory)` -/
  | setBootPartition
  /-- a call of `ESP.restart()` -/
  | restart
  deriving DecidableEq, Repr

/-- Source `sendLogMessage`: print on the serial line and broadcast to every client. -/
def sendLogMessage (message : String) : List Effect :=
  [Effect.serialPrintln message, Effect.broadcastTXT message]

/-! ## Globals -/

/-- Source `enum DriveMode { AUTO, MANUAL }`. -/
inductive DriveMode where
  | AUTO
  | MANUAL
  deriving DecidableEq, Repr

/-- The mutable globals of the sketch, the four LEDC channel duties and the
level of the standby pin (`stby = true` is `HIGH`, bridge enabled). -/
structure State where
  targetA : Int
  targetB : Int
  currentA : Int
  currentB : Int
  currentMode : DriveMode
  lastCommandTime : Nat
  lastLogMillis : Nat
  dutyAFwd : Nat
  dutyARev : Nat
  dutyBLeft : Nat
  dutyBRight : Nat
  stby : Bool
  deriving DecidableEq, Repr

/-- The globals as the initialisers and `setup` leave them: targets `0`, mode
`MANUAL`, timestamps `0`, no duty written yet, `motorEnable(false)`. -/
def initialState : State :=
  { targetA := 0, targetB := 0, currentA := 0, currentB := 0,
    currentMode := DriveMode.MANUAL, lastCommandTime := 0, lastLogMillis := 0,
    dutyAFwd := 0, dutyARev := 0, dutyBLeft := 0, dutyBRight := 0, stby := false }

def CH_A_FWD : Nat := 0
def CH_A_REV : Nat := 1
def CH_B_LEFT : Nat := 2
def CH_B_RIGHT : Nat := 3

def MAX_DUTY : Int := 200
def COMMAND_TIMEOUT : Nat := 300

/-- Difference of two `unsigned long` values as the 32-bit target computes it. -/
def subU32 (a b : Nat) : Nat :=
  (((a : Int) - (b : Int)) % 4294967296).toNat

/-- Modelled from the spec: the Arduino core macro `constrain(amt, low, high)`, which
is not under `src/`; the spec calls it `clamp`.  It is
`amt < low ? low : (amt > high ? high : amt)`. -/
def constrain (amt low high : Int) : Int :=
  if amt < low then low else if amt > high then high else amt

/-- C `abs` on an `int` that is not `INT_MIN`. -/
def abs (x : Int) : Int :=
  if x > 0 then x else -x

/-- Platform `ledcWrite(chan, duty)`: the `int` argument converts to the `uint32_t`
parameter and becomes the duty of that channel. -/
def ledcWrite (chan : Nat) (duty : Int) (s : State) : State :=
  let d : Nat := (duty % 4294967296).toNat
  if chan = CH_A_FWD then { s with dutyAFwd := d }
  else if chan = CH_A_REV then { s with dutyARev := d }
  else if chan = CH_B_LEFT then { s with dutyBLeft := d }
  else if chan = CH_B_RIGHT then { s with dutyBRight := d }
  else s

/-- Source `motorEnable`: drive the standby pin. -/
def motorEnable (enable : Bool) (s : State) : State :=
  { s with stby := enable }

/-- Source `applyMotorA`. -/
def applyMotorA (speed : Int) (s : State) : State :=
  let speed := constrain speed (-MAX_DUTY) MAX_DUTY
  if speed > 0 then
    ledcWrite CH_A_REV 0 (ledcWrite CH_A_FWD speed s)
  else if speed < 0 then
    ledcWrite CH_A_REV (abs speed) (ledcWrite CH_A_FWD 0 s)
  else
    ledcWrite CH_A_REV 0 (ledcWrite CH_A_FWD 0 s)

/-- Source `applyMotorB`. -/
def applyMotorB (speed : Int) (s : State) : State :=
  let speed := constrain speed (-MAX_DUTY) MAX_DUTY
  if speed > 0 then
    ledcWrite CH_B_LEFT 0 (ledcWrite CH_B_RIGHT speed s)
  else if speed < 0 then
    ledcWrite CH_B_LEFT (abs speed) (ledcWrite CH_B_RIGHT 0 s)
  else
    ledcWrite CH_B_LEFT 0 (ledcWrite CH_B_RIGHT 0 s)

/-- Source `stopAllMotors`. -/
def stopAllMotors (s : State) : State × List Effect :=
  (motorEnable false (applyMotorB 0 (applyMotorA 0 s)),
    sendLogMessage "Motors stopped due to command timeout.")

/-- Source `emergencyStopNow`. -/
def emergencyStopNow (s : State) : State × List Effect :=
  let s := { s with targetA := 0, targetB := 0 }
  let s := { s with currentA := 0, currentB := 0 }
  (motorEnable false (applyMotorB 0 (applyMotorA 0 s)),
    sendLogMessage "!!! EMERGENCY STOP Triggered !!!")

/-! ## Command handling -/

/-- Source `handleCarCommand`: a `switch` without a `default` case. -/
def handleCarCommand (cmd : Char) (s : State) : State × List Effect :=
  if cmd = 'A' then
    ({ s with currentMode := DriveMode.AUTO }, sendLogMessage "Mode Switched: AUTO")
  else if cmd = 'M' then
    ({ s with currentMode := DriveMode.MANUAL }, sendLogMessage "Mode Switched: MANUAL")
  else if cmd = 'S' then
    emergencyStopNow s
  else
    (s, [])

/-- Modelled from the spec: `serializeJson` of the ArduinoJson library (not under
`src/`) on the status document built by `controlByJoystick`, whose members are
assigned in the order `motorA`, `motorB`, `debug`.  The spec gives the format as
`{"motorA": <int throttle>, "motorB": <int steer>, "debug": "<string>"}` and the
minified text `{"motorA":-30,"motorB":50,"debug":"JSTK:-30/50"}` for one input. -/
def serializeStatus (motorA motorB : Int) (debug : String) : String :=
  "\x7b\"motorA\":" ++ toString motorA ++ ",\"motorB\":" ++ toString motorB ++
    ",\"debug\":\"" ++ debug ++ "\"\x7d"

/-- Source `controlByJoystick`. -/
def controlByJoystick (steer throttle : Int) (s : State) : State × List Effect :=
  let s := { s with targetA := throttle }
  let s := { s with targetB := steer }
  let s :=
    if steer = 0 ∧ throttle = 0 then
      motorEnable false (applyMotorB 0 (applyMotorA 0 s))
    else
      applyMotorB steer (applyMotorA throttle (motorEnable true s))
  let debug := "JSTK:" ++ toString throttle ++ "/" ++ toString steer
  (s, [Effect.broadcastTXT (serializeStatus throttle steer debug)])

/-! ## WebSocket events -/

/-- The event kinds of the WebSockets library that `webSocketEvent` switches on;
`OTHER` stands for every kind that falls to `default`. -/
inductive WStype where
  | CONNECTED
  | DISCONNECTED
  | TEXT
  | OTHER
  deriving DecidableEq, Repr

/-- What `deserializeJson(doc, payload)` followed by the reads `doc["steer"] | 0`
and `doc["throttle"] | 0` yields for a payload.  ArduinoJson is a library outside
the repository, so its answer is an input of the model: either an error with its
`c_str()`, or success with the two `int` values read. -/
inductive Deserialized where
  | ok (steer throttle : Int)
  | error (c_str : String)
  deriving DecidableEq, Repr

/-- One invocation of the `webSocketEvent` callback together with what the
platform answers during it. -/
structure WsCall where
  /-- the `type` argument -/
  type : WStype
  /-- the text at `payload`, one `Char` per `char` -/
  payload : String
  /-- the text of `webSocket.remoteIP(num).toString()` -/
  remoteIP : String
  /-- the answer of ArduinoJson for `payload` -/
  json : Deserialized
  /-- the value `millis()` returns during this call -/
  now : Nat
  deriving DecidableEq, Repr

/-- Arduino `String::charAt`: the character at the index, `0` when out of range. -/
def charAt (msg : String) (i : Nat) : Char :=
  msg.data.getD i (Char.ofNat 0)

/-- Source `webSocketEvent`. -/
def webSocketEvent (c : WsCall) (s : State) : State × List Effect :=
  match c.type with
  | WStype.CONNECTED =>
    (s, sendLogMessage ("--- WS Client Connected from " ++ c.remoteIP ++ " ---"))
  | WStype.DISCONNECTED =>
    ({ s with targetA := 0, targetB := 0 }, sendLogMessage "--- WS Client Disconnected ---")
  | WStype.TEXT =>
    let msg := c.payload
    if msg.length = 1 then
      let r := handleCarCommand (charAt msg 0) s
      ({ r.1 with lastCommandTime := c.now }, r.2)
    else
      match c.json with
      | Deserialized.ok steer throttle =>
        let r := controlByJoystick steer throttle s
        ({ r.1 with lastCommandTime := c.now }, r.2)
      | Deserialized.error e =>
        (s, sendLogMessage ("WS Error: JSON parse failed: " ++ e))
  | WStype.OTHER => (s, [])

/-! ## Main loop -/

/-- The motor timeout block of source `loop`; `now` is the value of its `millis()`. -/
def timeoutGuard (now : Nat) (s : State) : State × List Effect :=
  if subU32 now s.lastCommandTime > COMMAND_TIMEOUT then
    if s.targetA ≠ 0 ∨ s.targetB ≠ 0 then
      let r := stopAllMotors s
      ({ r.1 with targetA := 0, targetB := 0 }, r.2)
    else (s, [])
  else (s, [])

/-- The heartbeat block of source `loop`; `t2` and `t3` are the values of its two
`millis()` calls. -/
def heartbeat (t2 t3 : Nat) (s : State) : State × List Effect :=
  if subU32 t2 s.lastLogMillis > 5000 then
    ({ s with lastLogMillis := t3 },
      sendLogMessage ("Heartbeat: Car system active, Mode=" ++
        (if s.currentMode = DriveMode.AUTO then "AUTO" else "MANUAL")))
  else (s, [])

/-- Deliver a batch of callbacks in order, collecting the effects. -/
def dispatchAll : List WsCall → State → State × List Effect
  | [], s => (s, [])
  | c :: cs, s =>
    let r := webSocketEvent c s
    let r2 := dispatchAll cs r.1
    (r2.1, r.2 ++ r2.2)

/-- Source `loop`: `webSocket.loop()` delivers the callbacks `incoming`, then the
timeout block and the heartbeat block run.  `ArduinoOTA.handle()` does not touch
the globals and is left out. -/
def loop (incoming : List WsCall) (t1 t2 t3 : Nat) (s : State) : State × List Effect :=
  let r := dispatchAll incoming s
  let r2 := timeoutGuard t1 r.1
  let r3 := heartbeat t2 t3 r2.1
  (r3.1, r.2 ++ r2.2 ++ r3.2)

/-- What can happen to the globals: a callback from the WebSocket server, or a
pass of `loop` in which no callback is pending (a timeout poll). -/
inductive Event where
  | ws (c : WsCall)
  | poll (t1 t2 t3 : Nat)
  deriving DecidableEq, Repr

def step (e : Event) (s : State) : State × List Effect :=
  match e with
  | Event.ws c => webSocketEvent c s
  | Event.poll t1 t2 t3 => loop [] t1 t2 t3 s

/-- The state after a sequence of events. -/
def run : List Event → State → State
  | [], s => s
  | e :: es, s => run es (step e s).1

/-- Dispatch the same callback `n` times in a row. -/
def dispatchTimes (c : WsCall) : Nat → State → State
  | 0, s => s
  | n + 1, s => dispatchTimes c n (webSocketEvent c s).1

/-- A `TEXT` callback with the given payload, ArduinoJson answer and clock value. -/
def textCall (payload : String) (json : Deserialized) (now : Nat) : WsCall :=
  { type := WStype.TEXT, payload := payload, remoteIP := "", json := json, now := now }

/-- A `DISCONNECTED` callback. -/
def disconnectCall : WsCall :=
  { type := WStype.DISCONNECTED, payload := "", remoteIP := "",
    json := Deserialized.error "EmptyInput", now := 0 }

/-- A state in which the car is driving (targets `(-30, 50)`, bridge enabled) and the
last command was accepted at clock value 4294967000, shortly before the 32-bit
millisecond counter wraps. -/
def drivingStale : State :=
  { initialState with
    lastCommandTime := 4294967000, targetA := -30, targetB := 50,
    dutyARev := 30, dutyBRight := 50, stby := true }

/-- The joystick message of the spec's end-to-end example, accepted at clock value
1000: payload `{"steer":50,"throttle":-30}`, for which ArduinoJson reads steer 50
and throttle -30. -/
def joystickDemo : WsCall :=
  textCall "\x7b\"steer\":50,\"throttle\":-30\x7d" (Deserialized.ok 50 (-30)) 1000

/-- The event is a client disconnect. -/
def isDisconnect (e : Event) : Bool :=
  match e with
  | Event.ws c => decide (c.type = WStype.DISCONNECTED)
  | Event.poll _ _ _ => false

/-- The event is a text message that re-evaluates the bridge: the emergency stop `S`,
or a structured message that parses. -/
def isBridgeCommand (e : Event) : Bool :=
  match e with
  | Event.ws c =>
    decide (c.type = WStype.TEXT) &&
      (if c.payload.length = 1 then decide (charAt c.payload 0 = 'S')
       else match c.json with
        | Deserialized.ok _ _ => true
        | Deserialized.error _ => false)
  | Event.poll _ _ _ => false

/-- Whether, after the events run from state `s`, the most recent client disconnect
arrived while the bridge was enabled and no emergency stop or parsed structured message
has followed it; `b` is the answer before the events. -/
def hotDisconnect : List Event → State → Bool → Bool
  | [], _, b => b
  | e :: es, s, b =>
    hotDisconnect es (step e s).1
      (if isDisconnect e then s.stby else if isBridgeCommand e then false else b)

/-- Both targets are zero. -/
def targetsZero (s : State) : Prop :=
  s.targetA = 0 ∧ s.targetB = 0

instance (s : State) : Decidable (targetsZero s) := by
  unfold targetsZero
  exact inferInstance

/-- All four PWM duties are zero. -/
def dutiesZero (s : State) : Prop :=
  s.dutyAFwd = 0 ∧ s.dutyARev = 0 ∧ s.dutyBLeft = 0 ∧ s.dutyBRight = 0

instance (s : State) : Decidable (dutiesZero s) := by
  unfold dutiesZero
  exact inferInstance

/-- The zero-means-disable property of a single state. -/
def zeroMeansDisabled (s : State) : Prop :=
  targetsZero s → s.stby = false

/-- What the platform answers while `connectToWiFi` runs. -/
structure Platform where
  /-- milliseconds since boot at the `k`-th call of `millis()` -/
  clock : Nat → Nat
  /-- the `wl_status_t` code returned by the `k`-th call of `WiFi.status()` -/
  wifiStatus : Nat → Nat
  /-- the text of `WiFi.localIP().toString()` -/
  localIP : String
  /-- whether `esp_partition_find_first` returns a partition -/
  factoryFound : Bool
  /-- the `esp_err_t` returned by `esp_ota_set_boot_partition` -/
  setBootErr : Int
  /-- the text `esp_err_to_name` gives for that code -/
  errName : String

def WL_CONNECTED : Nat := 3
def WL_DISCONNECTED : Nat := 6
def ESP_OK : Int := 0
def CONNECT_TIMEOUT_MS : Nat := 15000

/-- The `unsigned long` that the `k`-th call of `millis()` returns. -/
def millis (p : Platform) (k : Nat) : Nat :=
  p.clock k % 4294967296

/-- Source `jumpToFactory`.  `ESP.restart()` does not return, so each branch ends
with it. -/
def jumpToFactory (p : Platform) : List Effect :=
  sendLogMessage "--- WiFi connection failed. JUMPING TO FACTORY PARTITION ---" ++
  [Effect.findFactoryPartition] ++
  (if p.factoryFound then
    [Effect.setBootPartition] ++
    (if p.setBootErr = ESP_OK then
      sendLogMessage "Successfully set Factory partition as next boot target." ++
        [Effect.delay 500, Effect.restart]
    else
      sendLogMessage ("Error setting boot partition! (" ++ p.errName ++ ") Rebooting anyway...") ++
        [Effect.delay 2000, Effect.restart])
  else
    sendLogMessage "FATAL: Factory partition not found! Rebooting..." ++
      [Effect.delay 2000, Effect.restart])

/-- How `connectToWiFi` ends. -/
inductive ConnectOutcome where
  | connected
  | fellBack
  deriving DecidableEq, Repr

/-- The `while (WiFi.status() != WL_CONNECTED)` loop of source `connectToWiFi` and the
log line after it.  `mc` and `sc` count the calls of `millis()` and `WiFi.status()`
made so far; `none` means the fuel ran out before the loop ended. -/
def waitForWiFi (p : Platform) (connectStart : Nat) :
    Nat → Nat → Nat → Option (ConnectOutcome × List Effect)
  | 0, _, _ => none
  | fuel + 1, mc, sc =>
    if p.wifiStatus sc ≠ WL_CONNECTED then
      if subU32 (millis p mc) connectStart > CONNECT_TIMEOUT_MS then
        some (ConnectOutcome.fellBack,
          [Effect.delay 500] ++
          sendLogMessage ("WiFi connection timed out after " ++
            toString (CONNECT_TIMEOUT_MS / 1000) ++ " seconds.") ++
          jumpToFactory p)
      else if p.wifiStatus (sc + 1) = WL_DISCONNECTED then
        (waitForWiFi p connectStart fuel (mc + 1) (sc + 2)).map fun r =>
          (r.1, [Effect.delay 500,
            Effect.serialPrintln "...Waiting for WiFi connection (Status: Disconnected)"] ++ r.2)
      else
        (waitForWiFi p connectStart fuel (mc + 1) (sc + 3)).map fun r =>
          (r.1, [Effect.delay 500,
            Effect.serialPrintln ("...Waiting for WiFi connection (Status: " ++
              toString (p.wifiStatus (sc + 2)) ++ ")")] ++ r.2)
    else
      some (ConnectOutcome.connected,
        sendLogMessage ("WiFi Connected! IP Address: " ++ p.localIP))

/-- Source `connectToWiFi`, run with the given fuel for its loop. -/
def connectToWiFi (p : Platform) (fuel : Nat) : Option (ConnectOutcome × List Effect) :=
  (waitForWiFi p (millis p 0) fuel 1 0).map fun r =>
    (r.1, sendLogMessage "Setting WiFi mode to Station..." ++
      [Effect.wifiModeSta, Effect.wifiBegin] ++ r.2)

/-- The elapsed time `millis() - connectStart` that the `n`-th pass of the loop reads. -/
def elapsedAt (p : Platform) (n : Nat) : Nat :=
  subU32 (millis p n) (millis p 0)

/-- A platform on which association never succeeds (status stays `WL_DISCONNECTED`),
each pass of the loop takes exactly 500 ms, the factory partition exists and is set. -/
def steadyPlatform : Platform :=
  { clock := fun k => 500 * k, wifiStatus := fun _ => WL_DISCONNECTED, localIP := "0.0.0.0",
    factoryFound := true, setBootErr := ESP_OK, errName := "ESP_OK" }

end Esp32Car

namespace Esp32Car

/-! ## Motor control -/

theorem constrain_bounds (x : Int) :
    -200 ≤ constrain x (-MAX_DUTY) MAX_DUTY ∧ constrain x (-MAX_DUTY) MAX_DUTY ≤ 200 := by
  unfold constrain MAX_DUTY
  split_ifs <;> omega

/-- What `applyMotorA` does to the state, channel by channel. -/
theorem applyMotorA_eq (speed : Int) (s : State) :
    applyMotorA speed s =
      { s with
        dutyAFwd := (max (constrain speed (-200) 200) 0).toNat
        dutyARev := (max (-(constrain speed (-200) 200)) 0).toNat } := by
  have hb := constrain_bounds speed
  simp only [MAX_DUTY] at hb
  unfold applyMotorA ledcWrite abs MAX_DUTY CH_A_FWD CH_A_REV CH_B_LEFT CH_B_RIGHT
  generalize constrain speed (-200) 200 = c at hb ⊢
  simp only []
  split_ifs <;> simp_all <;> omega

/-- What `applyMotorB` does to the state, channel by channel. -/
theorem applyMotorB_eq (speed : Int) (s : State) :
    applyMotorB speed s =
      { s with
        dutyBRight := (max (constrain speed (-200) 200) 0).toNat
        dutyBLeft := (max (-(constrain speed (-200) 200)) 0).toNat } := by
  have hb := constrain_bounds speed
  simp only [MAX_DUTY] at hb
  unfold applyMotorB ledcWrite abs MAX_DUTY CH_A_FWD CH_A_REV CH_B_LEFT CH_B_RIGHT
  generalize constrain speed (-200) 200 = c at hb ⊢
  simp only []
  split_ifs <;> simp_all <;> omega

theorem constrain_zero : constrain 0 (-200) 200 = 0 := by decide

/-- The three calls that every stop path makes: both axes to zero, bridge off. -/
theorem stop_eq (s : State) :
    motorEnable false (applyMotorB 0 (applyMotorA 0 s)) =
      { s with dutyAFwd := 0, dutyARev := 0, dutyBLeft := 0, dutyBRight := 0, stby := false } := by
  rw [applyMotorA_eq, applyMotorB_eq, constrain_zero]
  simp [motorEnable]

/-- C1: for every speed (any integer, so every 32-bit `int` including `INT_MIN`),
`applyMotorA` and `applyMotorB` write the duties given by `c = constrain speed (-200) 200`:
the forward/right channel gets `max c 0`, the reverse/left channel gets `max (-c) 0`;
both duties are at most 200, at most one of them is non-zero, and speed 0 writes 0 to
both channels. -/
theorem applyMotor_duties_clamped (speed : Int) (s : State) :
    ((applyMotorA speed s).dutyAFwd : Int) = max (constrain speed (-200) 200) 0 ∧
    ((applyMotorA speed s).dutyARev : Int) = max (-(constrain speed (-200) 200)) 0 ∧
    ((applyMotorB speed s).dutyBRight : Int) = max (constrain speed (-200) 200) 0 ∧
    ((applyMotorB speed s).dutyBLeft : Int) = max (-(constrain speed (-200) 200)) 0 ∧
    (applyMotorA speed s).dutyAFwd ≤ 200 ∧ (applyMotorA speed s).dutyARev ≤ 200 ∧
    (applyMotorB speed s).dutyBRight ≤ 200 ∧ (applyMotorB speed s).dutyBLeft ≤ 200 ∧
    ((applyMotorA speed s).dutyAFwd = 0 ∨ (applyMotorA speed s).dutyARev = 0) ∧
    ((applyMotorB speed s).dutyBRight = 0 ∨ (applyMotorB speed s).dutyBLeft = 0) ∧
    (applyMotorA 0 s).dutyAFwd = 0 ∧ (applyMotorA 0 s).dutyARev = 0 ∧
    (applyMotorB 0 s).dutyBRight = 0 ∧ (applyMotorB 0 s).dutyBLeft = 0 ∧
    (applyMotorA (-2147483648) s).dutyARev = 200 ∧ (applyMotorB 2147483647 s).dutyBRight = 200 := by
  have hb := constrain_bounds speed
  simp only [MAX_DUTY] at hb
  have h1 : constrain (-2147483648) (-200) 200 = -200 := by decide
  have h2 : constrain 2147483647 (-200) 200 = 200 := by decide
  simp only [applyMotorA_eq, applyMotorB_eq, constrain_zero, h1, h2]
  generalize constrain speed (-200) 200 = c at hb ⊢
  refine ⟨?_, ?_, ?_, ?_, ?_, ?_, ?_, ?_, ?_, ?_, ?_, ?_, ?_, ?_, ?_, ?_⟩ <;>
    first
      | decide
      | omega

theorem timeoutGuard_fire (s : State) (now : Nat)
    (hel : subU32 now s.lastCommandTime > 300) (hnz : ¬ (s.targetA = 0 ∧ s.targetB = 0)) :
    timeoutGuard now s =
      ({ s with targetA := 0, targetB := 0, dutyAFwd := 0, dutyARev := 0, dutyBLeft := 0,
                dutyBRight := 0, stby := false },
        sendLogMessage "Motors stopped due to command timeout.") := by
  have h : s.targetA ≠ 0 ∨ s.targetB ≠ 0 := by
    by_cases h0 : s.targetA = 0
    · right; intro h1; exact hnz ⟨h0, h1⟩
    · left; exact h0
  unfold timeoutGuard
  rw [if_pos (by simpa [COMMAND_TIMEOUT] using hel), if_pos h]
  simp [stopAllMotors, stop_eq]

/-- C2: if the elapsed time `now - lastCommandTime` (modulo `2^32`) exceeds 300 and the
Target Speed Pair is not `(0,0)`, then after the timeout block of `loop` the targets are
`(0,0)`, all four duties are 0, the bridge is disabled and the block has emitted exactly
the log line "Motors stopped due to command timeout."; a whole `loop` pass with no
pending callback leaves the same and emits that line exactly once. -/
theorem timeout_forces_stop (s : State) (now : Nat)
    (hel : subU32 now s.lastCommandTime > 300) (hnz : ¬ (s.targetA = 0 ∧ s.targetB = 0)) :
    (timeoutGuard now s).1.targetA = 0 ∧ (timeoutGuard now s).1.targetB = 0 ∧
    (timeoutGuard now s).1.dutyAFwd = 0 ∧ (timeoutGuard now s).1.dutyARev = 0 ∧
    (timeoutGuard now s).1.dutyBLeft = 0 ∧ (timeoutGuard now s).1.dutyBRight = 0 ∧
    (timeoutGuard now s).1.stby = false ∧
    (timeoutGuard now s).2 = sendLogMessage "Motors stopped due to command timeout." ∧
    ∀ t2 t3 : Nat,
      (loop [] now t2 t3 s).1.targetA = 0 ∧ (loop [] now t2 t3 s).1.targetB = 0 ∧
      (loop [] now t2 t3 s).1.dutyAFwd = 0 ∧ (loop [] now t2 t3 s).1.dutyARev = 0 ∧
      (loop [] now t2 t3 s).1.dutyBLeft = 0 ∧ (loop [] now t2 t3 s).1.dutyBRight = 0 ∧
      (loop [] now t2 t3 s).1.stby = false ∧
      (loop [] now t2 t3 s).2.count
        (Effect.broadcastTXT "Motors stopped due to command timeout.") = 1 ∧
      (loop [] now t2 t3 s).2.count
        (Effect.serialPrintln "Motors stopped due to command timeout.") = 1 := by
  have hg := timeoutGuard_fire s now hel hnz
  refine ⟨by rw [hg], by rw [hg], by rw [hg], by rw [hg], by rw [hg], by rw [hg], by rw [hg],
    by rw [hg], ?_⟩
  intro t2 t3
  simp only [loop, dispatchAll, hg, heartbeat]
  split_ifs with h1 h2
  · simp [sendLogMessage]
  · simp [sendLogMessage]
  · simp [sendLogMessage]

/-- C2 at `drivingStale` with the clock wrapped to 100, 396 ms after the last
command at 4294967000. -/
theorem timeout_forces_stop_witness :
    (timeoutGuard 100 drivingStale).1.stby = false ∧
    (timeoutGuard 100 drivingStale).1.dutyBRight = 0 :=
  have h := timeout_forces_stop drivingStale 100 (by decide) (by decide)
  ⟨h.2.2.2.2.2.2.1, h.2.2.2.2.2.1⟩

/-! ## Dispatcher and timeout guard: state equations -/

theorem emergencyStopNow_fst (s : State) :
    (emergencyStopNow s).1 =
      { s with targetA := 0, targetB := 0, currentA := 0, currentB := 0, dutyAFwd := 0,
               dutyARev := 0, dutyBLeft := 0, dutyBRight := 0, stby := false } := by
  simp [emergencyStopNow, stop_eq]

theorem controlByJoystick_fst (steer throttle : Int) (s : State) :
    (controlByJoystick steer throttle s).1 =
      if steer = 0 ∧ throttle = 0 then
        { s with targetA := throttle, targetB := steer, dutyAFwd := 0, dutyARev := 0,
                 dutyBLeft := 0, dutyBRight := 0, stby := false }
      else
        { s with targetA := throttle, targetB := steer, stby := true,
                 dutyAFwd := (max (constrain throttle (-200) 200) 0).toNat,
                 dutyARev := (max (-(constrain throttle (-200) 200)) 0).toNat,
                 dutyBRight := (max (constrain steer (-200) 200) 0).toNat,
                 dutyBLeft := (max (-(constrain steer (-200) 200)) 0).toNat } := by
  unfold controlByJoystick
  split_ifs with h
  · simp [stop_eq, h]
  · simp [applyMotorA_eq, applyMotorB_eq, motorEnable, h]

theorem handleCarCommand_zmd (cmd : Char) (s : State) (h : zeroMeansDisabled s) :
    zeroMeansDisabled (handleCarCommand cmd s).1 := by
  unfold handleCarCommand
  split_ifs
  · exact h
  · exact h
  · intro _; rw [emergencyStopNow_fst]
  · exact h

theorem controlByJoystick_zmd (steer throttle : Int) (s : State) :
    zeroMeansDisabled (controlByJoystick steer throttle s).1 := by
  rw [controlByJoystick_fst]
  split_ifs with h
  · intro _; rfl
  · intro hz; exact absurd ⟨hz.2, hz.1⟩ h

theorem timeoutGuard_zmd (now : Nat) (s : State) (h : zeroMeansDisabled s) :
    zeroMeansDisabled (timeoutGuard now s).1 := by
  unfold timeoutGuard
  split_ifs
  · intro _; simp [stopAllMotors, stop_eq]
  · exact h
  · exact h

theorem heartbeat_zmd (t2 t3 : Nat) (s : State) (h : zeroMeansDisabled s) :
    zeroMeansDisabled (heartbeat t2 t3 s).1 := by
  unfold heartbeat
  split_ifs <;> exact h

theorem step_zmd (e : Event) (s : State) (hd : isDisconnect e = false)
    (h : zeroMeansDisabled s) : zeroMeansDisabled (step e s).1 := by
  cases e with
  | poll t1 t2 t3 =>
    simp only [step, loop, dispatchAll]
    exact heartbeat_zmd _ _ _ (timeoutGuard_zmd _ _ h)
  | ws c =>
    simp only [step, webSocketEvent]
    simp only [isDisconnect, decide_eq_false_iff_not] at hd
    split
    · exact h
    · next hc => exact absurd hc hd
    · split_ifs
      · exact handleCarCommand_zmd _ _ h
      · split
        · exact controlByJoystick_zmd _ _ _
        · exact h
    · exact h

theorem step_bridgeCommand_zmd (e : Event) (s : State) (hb : isBridgeCommand e = true) :
    zeroMeansDisabled (step e s).1 := by
  cases e with
  | poll t1 t2 t3 => simp [isBridgeCommand] at hb
  | ws c =>
    simp only [isBridgeCommand, Bool.and_eq_true, decide_eq_true_eq] at hb
    obtain ⟨ht, hb⟩ := hb
    simp only [step, webSocketEvent, ht]
    split_ifs with hl
    · rw [if_pos hl] at hb
      simp only [decide_eq_true_eq] at hb
      intro _
      simp [hb, handleCarCommand, emergencyStopNow_fst]
    · rw [if_neg hl] at hb
      split
      · exact controlByJoystick_zmd _ _ _
      · next he => simp [he] at hb

theorem step_disconnect_eq (e : Event) (s : State) (hd : isDisconnect e = true) :
    (step e s).1 = { s with targetA := 0, targetB := 0 } := by
  cases e with
  | poll t1 t2 t3 => simp [isDisconnect] at hd
  | ws c =>
    simp only [isDisconnect, decide_eq_true_eq] at hd
    simp only [step, webSocketEvent, hd]

theorem run_zmd (es : List Event) :
    ∀ (s : State) (b : Bool), (b = false → zeroMeansDisabled s) →
      hotDisconnect es s b = false → zeroMeansDisabled (run es s) := by
  induction es with
  | nil => intro s b hs hb; exact hs hb
  | cons e es ih =>
    intro s b hs hb
    simp only [hotDisconnect] at hb
    simp only [run]
    refine ih _ _ ?_ hb
    intro hb2
    by_cases hd : isDisconnect e = true
    · simp only [hd, if_true] at hb2
      rw [step_disconnect_eq e s hd]
      intro _
      exact hb2
    · have hd2 : isDisconnect e = false := by simpa using hd
      by_cases hc : isBridgeCommand e = true
      · exact step_bridgeCommand_zmd e s hc
      · simp only [hd2, hc] at hb2
        exact step_zmd e s hd2 (hs (by simpa using hb2))

/-- A state with zero targets and the bridge enabled stays so under every event that
is neither a disconnect nor an emergency stop nor a parsed structured message. -/
theorem step_keeps_enabled (e : Event) (s : State) (hd : isDisconnect e = false)
    (hc : isBridgeCommand e = false) (h : targetsZero s ∧ s.stby = true) :
    targetsZero (step e s).1 ∧ (step e s).1.stby = true := by
  cases e with
  | poll t1 t2 t3 =>
    have hg : timeoutGuard t1 s = (s, []) := by
      unfold timeoutGuard
      have hz : ¬ (s.targetA ≠ 0 ∨ s.targetB ≠ 0) := by
        intro hz
        rcases hz with hz | hz
        · exact hz h.1.1
        · exact hz h.1.2
      rw [if_neg hz]
      simp
    simp only [step, loop, dispatchAll, hg, heartbeat]
    split_ifs <;> exact h
  | ws c =>
    simp only [isDisconnect, decide_eq_false_iff_not] at hd
    simp only [isBridgeCommand, Bool.and_eq_false_iff, decide_eq_false_iff_not] at hc
    simp only [step, webSocketEvent]
    split
    · exact h
    · next ht => exact absurd ht hd
    · next ht =>
      rcases hc with hc | hc
      · exact absurd ht hc
      · split_ifs with hl
        · rw [if_pos hl] at hc
          simp only [decide_eq_false_iff_not] at hc
          simp only [handleCarCommand, hc, if_false]
          split_ifs <;> exact h
        · rw [if_neg hl] at hc
          split
          · next hj => simp [hj] at hc
          · exact h
    · exact h

/-- The exception in the zero-means-disable invariant is needed: while a disconnect that
arrived with the bridge enabled is unanswered, the targets are zero and the bridge is
enabled. -/
theorem run_hot_enabled (es : List Event) :
    ∀ (s : State) (b : Bool), (b = true → targetsZero s ∧ s.stby = true) →
      hotDisconnect es s b = true →
      targetsZero (run es s) ∧ (run es s).stby = true := by
  induction es with
  | nil => intro s b hs hb; exact hs hb
  | cons e es ih =>
    intro s b hs hb
    simp only [hotDisconnect] at hb
    simp only [run]
    refine ih _ _ ?_ hb
    intro hb2
    by_cases hd : isDisconnect e = true
    · simp only [hd, if_true] at hb2
      rw [step_disconnect_eq e s hd]
      exact ⟨⟨rfl, rfl⟩, hb2⟩
    · have hd2 : isDisconnect e = false := by simpa using hd
      by_cases hc : isBridgeCommand e = true
      · simp [hd2, hc] at hb2
      · have hc2 : isBridgeCommand e = false := by simpa using hc
        simp only [hd2, hc2] at hb2
        exact step_keeps_enabled e s hd2 hc2 (hs (by simpa using hb2))

/-! ## Claims about the dispatcher and the timeout guard -/

/-- C3 as stated fails: after the joystick message `{"steer":50,"throttle":-30}` and a
client disconnect, the Target Speed Pair is `(0,0)` and the bridge is still enabled. -/
theorem zero_targets_bridge_enabled_after_disconnect :
    targetsZero (run [Event.ws joystickDemo, Event.ws disconnectCall] initialState) ∧
    (run [Event.ws joystickDemo, Event.ws disconnectCall] initialState).stby = true := by
  decide

/-- C3 (amended): from the initial state, after every finite sequence of events, a
Target Speed Pair of `(0,0)` after the last event implies that the bridge is disabled,
except when the most recent client disconnect arrived while the bridge was enabled and
no emergency stop or parsed structured message has followed it. -/
theorem zero_means_disable_reachable (es : List Event)
    (hhot : hotDisconnect es initialState false = false)
    (hzero : targetsZero (run es initialState)) :
    (run es initialState).stby = false :=
  run_zmd es initialState false (fun _ _ => rfl) hhot hzero

/-- C3 (amended) on a run with a disconnect before any command, a drive command, an
emergency stop, a second disconnect (the bridge is disabled then) and a poll. -/
theorem zero_means_disable_reachable_witness :
    (run [Event.ws disconnectCall, Event.ws joystickDemo,
        Event.ws (textCall "S" (Deserialized.error "InvalidInput") 1500),
        Event.ws disconnectCall, Event.poll 2000 2000 2000] initialState).stby = false :=
  zero_means_disable_reachable _ (by decide) (by decide)

/-- After a disconnect, a `loop` pass changes neither a duty nor the standby pin,
whatever the clock values. -/
theorem poll_after_disconnect_frame (s : State) (t1 t2 t3 : Nat) :
    (run [Event.ws disconnectCall, Event.poll t1 t2 t3] s).stby = s.stby ∧
    (run [Event.ws disconnectCall, Event.poll t1 t2 t3] s).dutyAFwd = s.dutyAFwd ∧
    (run [Event.ws disconnectCall, Event.poll t1 t2 t3] s).dutyARev = s.dutyARev ∧
    (run [Event.ws disconnectCall, Event.poll t1 t2 t3] s).dutyBLeft = s.dutyBLeft ∧
    (run [Event.ws disconnectCall, Event.poll t1 t2 t3] s).dutyBRight = s.dutyBRight := by
  simp only [run, step, webSocketEvent, disconnectCall, loop, dispatchAll, timeoutGuard,
    heartbeat]
  split_ifs <;> simp_all

/-- C4: the code at the failing input.  After the joystick message
`{"steer":50,"throttle":-30}` at clock 1000, a client disconnect, and `loop` polls at
clocks 2000 and 60000 (more than 300 ms after the last command), the targets are `(0,0)`
but the right duty is still 50, the reverse duty is still 30 and the bridge is still
enabled. -/
theorem motors_keep_running_after_disconnect :
    subU32 2000 (run [Event.ws joystickDemo, Event.ws disconnectCall]
      initialState).lastCommandTime > COMMAND_TIMEOUT ∧
    targetsZero (run [Event.ws joystickDemo, Event.ws disconnectCall,
      Event.poll 2000 2000 2000, Event.poll 60000 60000 60000] initialState) ∧
    (run [Event.ws joystickDemo, Event.ws disconnectCall,
      Event.poll 2000 2000 2000, Event.poll 60000 60000 60000] initialState).dutyBRight = 50 ∧
    (run [Event.ws joystickDemo, Event.ws disconnectCall,
      Event.poll 2000 2000 2000, Event.poll 60000 60000 60000] initialState).dutyARev = 30 ∧
    (run [Event.ws joystickDemo, Event.ws disconnectCall,
      Event.poll 2000 2000 2000, Event.poll 60000 60000 60000] initialState).stby = true := by
  refine ⟨by decide, by decide, by decide, by decide, by decide⟩

/-- The state after one emergency-stop message. -/
theorem webSocketEvent_S (c : WsCall) (s : State) (ht : c.type = WStype.TEXT)
    (hp : c.payload = "S") :
    (webSocketEvent c s).1 =
      { s with targetA := 0, targetB := 0, currentA := 0, currentB := 0, dutyAFwd := 0,
               dutyARev := 0, dutyBLeft := 0, dutyBRight := 0, stby := false,
               lastCommandTime := c.now } := by
  have hl : c.payload.length = 1 := by rw [hp]; decide
  have hc : charAt c.payload 0 = 'S' := by rw [hp]; decide
  have hh : handleCarCommand 'S' s = emergencyStopNow s := by
    unfold handleCarCommand
    rw [if_neg (by decide), if_neg (by decide), if_pos rfl]
  simp only [webSocketEvent, ht, hl, if_true, hc, hh, emergencyStopNow_fst]

/-- C5: for every prior state, the single-character message `S` yields Target Speed Pair
`(0,0)`, all four duties 0 and the bridge disabled, and leaves the Drive Mode as it was;
dispatching it `n ≥ 1` times at the same clock value gives the same state as once. -/
theorem emergency_stop_idempotent (c : WsCall) (s : State) (n : Nat)
    (ht : c.type = WStype.TEXT) (hp : c.payload = "S") (hn : 1 ≤ n) :
    targetsZero (webSocketEvent c s).1 ∧ dutiesZero (webSocketEvent c s).1 ∧
    (webSocketEvent c s).1.stby = false ∧
    (webSocketEvent c s).1.currentMode = s.currentMode ∧
    dispatchTimes c n s = (webSocketEvent c s).1 := by
  have h1 := webSocketEvent_S c s ht hp
  refine ⟨by rw [h1]; exact ⟨rfl, rfl⟩, by rw [h1]; exact ⟨rfl, rfl, rfl, rfl⟩, by rw [h1],
    by rw [h1], ?_⟩
  obtain ⟨m, rfl⟩ : ∃ m, n = m + 1 := ⟨n - 1, by omega⟩
  clear hn
  induction m generalizing s with
  | zero => rfl
  | succ k ih =>
    have h2 := ih (webSocketEvent c s).1 (webSocketEvent_S c _ ht hp)
    show dispatchTimes c (k + 1) (webSocketEvent c s).1 = _
    rw [h2, webSocketEvent_S c _ ht hp, webSocketEvent_S c s ht hp]

/-- C5 at `drivingStale`: three emergency stops at clock value 7. -/
theorem emergency_stop_idempotent_witness :
    dispatchTimes (textCall "S" (Deserialized.error "InvalidInput") 7) 3 drivingStale =
      { drivingStale with targetA := 0, targetB := 0, dutyARev := 0, dutyBRight := 0,
                          stby := false, lastCommandTime := 7 } :=
  ((emergency_stop_idempotent (textCall "S" (Deserialized.error "InvalidInput") 7)
      drivingStale 3 rfl rfl (by decide)).2.2.2.2).trans (by decide)

/-- C6: for every prior state and clock value, an accepted text message (the single
character `A`, `M` or `S`, or a payload of another length that parses) leaves
`lastCommandTime` equal to the clock value read during the call. -/
theorem accepted_command_resets_timer (c : WsCall) (s : State) (ht : c.type = WStype.TEXT)
    (hacc : c.payload = "A" ∨ c.payload = "M" ∨ c.payload = "S" ∨
      (c.payload.length ≠ 1 ∧ ∃ steer throttle, c.json = Deserialized.ok steer throttle)) :
    (webSocketEvent c s).1.lastCommandTime = c.now := by
  simp only [webSocketEvent, ht]
  rcases hacc with h | h | h | ⟨hl, st, th, hj⟩
  · rw [if_pos (by rw [h]; decide)]
  · rw [if_pos (by rw [h]; decide)]
  · rw [if_pos (by rw [h]; decide)]
  · rw [if_neg hl, hj]

/-- C6 at `drivingStale`, whose timestamp 4294967000 is stale at clock value 5000. -/
theorem accepted_command_resets_timer_witness :
    subU32 5000 drivingStale.lastCommandTime > COMMAND_TIMEOUT ∧
    (webSocketEvent (textCall "M" (Deserialized.error "InvalidInput") 5000)
      drivingStale).1.lastCommandTime = 5000 :=
  ⟨by decide, accepted_command_resets_timer
    (textCall "M" (Deserialized.error "InvalidInput") 5000) drivingStale rfl
    (Or.inr (Or.inl rfl))⟩

/-- C8: for every structured payload that parses with `steer` and `throttle` not both
zero, the dispatcher enables the bridge, drives axis A with `constrain throttle (-200) 200`
and axis B with `constrain steer (-200) 200` (positive part on the forward/right channel,
magnitude of a negative value on the reverse/left channel), stores the raw values as
targets, and broadcasts exactly one status object with `motorA = throttle`,
`motorB = steer` and `debug = "JSTK:<throttle>/<steer>"`, all unclamped. -/
theorem joystick_dispatch (c : WsCall) (s : State) (steer throttle : Int)
    (ht : c.type = WStype.TEXT) (hl : c.payload.length ≠ 1)
    (hj : c.json = Deserialized.ok steer throttle) (hnz : ¬ (steer = 0 ∧ throttle = 0)) :
    (webSocketEvent c s).1.stby = true ∧
    ((webSocketEvent c s).1.dutyAFwd : Int) = max (constrain throttle (-200) 200) 0 ∧
    ((webSocketEvent c s).1.dutyARev : Int) = max (-(constrain throttle (-200) 200)) 0 ∧
    ((webSocketEvent c s).1.dutyBRight : Int) = max (constrain steer (-200) 200) 0 ∧
    ((webSocketEvent c s).1.dutyBLeft : Int) = max (-(constrain steer (-200) 200)) 0 ∧
    (webSocketEvent c s).1.targetA = throttle ∧ (webSocketEvent c s).1.targetB = steer ∧
    (webSocketEvent c s).2 =
      [Effect.broadcastTXT (serializeStatus throttle steer
        ("JSTK:" ++ toString throttle ++ "/" ++ toString steer))] := by
  have h : webSocketEvent c s =
      ({ (controlByJoystick steer throttle s).1 with lastCommandTime := c.now },
        (controlByJoystick steer throttle s).2) := by
    simp only [webSocketEvent, ht]
    rw [if_neg hl, hj]
  rw [h, controlByJoystick_fst, if_neg hnz]
  refine ⟨rfl, ?_, ?_, ?_, ?_, rfl, rfl, rfl⟩ <;> simp only [] <;> omega

/-- C8 at the spec's example `{"steer":50,"throttle":-30}`: right duty 50, left duty 0,
reverse duty 30, forward duty 0, bridge enabled, and the broadcast
`{"motorA":-30,"motorB":50,"debug":"JSTK:-30/50"}`. -/
theorem joystick_dispatch_witness :
    (webSocketEvent joystickDemo initialState).1.stby = true ∧
    (webSocketEvent joystickDemo initialState).1.dutyBRight = 50 ∧
    (webSocketEvent joystickDemo initialState).1.dutyBLeft = 0 ∧
    (webSocketEvent joystickDemo initialState).1.dutyARev = 30 ∧
    (webSocketEvent joystickDemo initialState).1.dutyAFwd = 0 ∧
    (webSocketEvent joystickDemo initialState).2 =
      [Effect.broadcastTXT
        "\x7b\"motorA\":-30,\"motorB\":50,\"debug\":\"JSTK:-30/50\"\x7d"] :=
  have h := joystick_dispatch joystickDemo initialState 50 (-30) rfl (by decide) rfl (by decide)
  ⟨h.1, by decide, by decide, by decide, by decide, h.2.2.2.2.2.2.2.trans (by decide)⟩

/-! ## Range of the stored targets and of the applied duties -/

theorem clock_lower (p : Platform) (hadv : ∀ k, p.clock k + 500 ≤ p.clock (k + 1)) (k : Nat) :
    p.clock 0 + 500 * k ≤ p.clock k := by
  induction k with
  | zero => simp
  | succ k ih => have := hadv k; omega

/-- While the true elapsed time is below `2^32` ms, the 32-bit difference is exact. -/
theorem elapsedAt_exact (p : Platform) (n : Nat) (h0 : p.clock 0 ≤ p.clock n)
    (h1 : p.clock n < p.clock 0 + 4294967296) :
    elapsedAt p n = p.clock n - p.clock 0 := by
  unfold elapsedAt subU32 millis
  omega

theorem waitForWiFi_falls_back (p : Platform)
    (hadv : ∀ k, p.clock k + 500 ≤ p.clock (k + 1))
    (hmax : ∀ k, p.clock (k + 1) ≤ p.clock k + 4294952295)
    (hnc : ∀ k, p.wifiStatus k ≠ WL_CONNECTED) :
    ∀ (m mc sc : Nat), 1 ≤ mc → mc + m = 31 → p.clock (mc - 1) ≤ p.clock 0 + 15000 →
      ∃ (n : Nat) (pre : List Effect),
        mc ≤ n ∧ n ≤ 31 ∧ 15000 < elapsedAt p n ∧
        (∀ j, mc ≤ j → j < n → elapsedAt p j ≤ 15000) ∧
        pre.count Effect.findFactoryPartition = 0 ∧ pre.count Effect.restart = 0 ∧
        pre.count (Effect.delay 500) = n - mc ∧
        ∀ fuel, n - mc + 1 ≤ fuel →
          waitForWiFi p (millis p 0) fuel mc sc =
            some (ConnectOutcome.fellBack,
              pre ++ ([Effect.delay 500] ++
                sendLogMessage ("WiFi connection timed out after " ++
                  toString (CONNECT_TIMEOUT_MS / 1000) ++ " seconds.") ++
                jumpToFactory p)) := by
  intro m
  induction m with
  | zero =>
    intro mc sc h1 h31 hprev
    have hmc : mc = 31 := by omega
    subst hmc
    have hlow := clock_lower p hadv 31
    have hm : p.clock 31 ≤ p.clock 30 + 4294952295 := hmax 30
    have he := elapsedAt_exact p 31 (by omega) (by simp only [show 31 - 1 = 30 from rfl] at hprev; omega)
    refine ⟨31, [], le_refl _, le_refl _, by rw [he]; omega, fun j h1 h2 => by omega,
      rfl, rfl, rfl, ?_⟩
    intro fuel hf
    obtain ⟨f, rfl⟩ : ∃ f, fuel = f + 1 := ⟨fuel - 1, by omega⟩
    have hgt : subU32 (millis p 31) (millis p 0) > CONNECT_TIMEOUT_MS := by
      have : elapsedAt p 31 > 15000 := by rw [he]; omega
      simpa [elapsedAt, CONNECT_TIMEOUT_MS] using this
    rw [waitForWiFi, if_pos (hnc sc), if_pos hgt]
    rfl
  | succ m ih =>
    intro mc sc h1 h31 hprev
    have hlow := clock_lower p hadv mc
    have hm := hmax (mc - 1)
    have hsucc : mc - 1 + 1 = mc := by omega
    rw [hsucc] at hm
    have he := elapsedAt_exact p mc (by omega) (by omega)
    by_cases hgt : 15000 < elapsedAt p mc
    · refine ⟨mc, [], le_refl _, by omega, hgt, fun j h1 h2 => by omega, rfl, rfl, by simp, ?_⟩
      intro fuel hf
      obtain ⟨f, rfl⟩ : ∃ f, fuel = f + 1 := ⟨fuel - 1, by omega⟩
      have hgt2 : subU32 (millis p mc) (millis p 0) > CONNECT_TIMEOUT_MS := by
        simpa [elapsedAt, CONNECT_TIMEOUT_MS] using hgt
      rw [waitForWiFi, if_pos (hnc sc), if_pos hgt2]
      rfl
    · have hle : elapsedAt p mc ≤ 15000 := by omega
      have hngt : ¬ subU32 (millis p mc) (millis p 0) > CONNECT_TIMEOUT_MS := by
        simpa [elapsedAt, CONNECT_TIMEOUT_MS] using hgt
      have hprev2 : p.clock (mc + 1 - 1) ≤ p.clock 0 + 15000 := by
        simp only [Nat.add_sub_cancel]; omega
      by_cases hd : p.wifiStatus (sc + 1) = WL_DISCONNECTED
      · obtain ⟨n, pre, hn1, hn2, hn3, hn4, hn5, hn6, hn7, hn8⟩ :=
          ih (mc + 1) (sc + 2) (by omega) (by omega) hprev2
        refine ⟨n, [Effect.delay 500, Effect.serialPrintln
            "...Waiting for WiFi connection (Status: Disconnected)"] ++ pre,
          by omega, hn2, hn3, ?_, ?_, ?_, ?_, ?_⟩
        · intro j hj1 hj2
          by_cases hj : j = mc
          · subst hj; exact hle
          · exact hn4 j (by omega) hj2
        · simpa [List.count_cons] using hn5
        · simpa [List.count_cons] using hn6
        · simp only [List.cons_append, List.nil_append, List.count_cons, hn7]
          simp
          omega
        · intro fuel hf
          obtain ⟨f, rfl⟩ : ∃ f, fuel = f + 1 := ⟨fuel - 1, by omega⟩
          rw [waitForWiFi, if_pos (hnc sc), if_neg hngt, if_pos hd, hn8 f (by omega)]
          rfl
      · obtain ⟨n, pre, hn1, hn2, hn3, hn4, hn5, hn6, hn7, hn8⟩ :=
          ih (mc + 1) (sc + 3) (by omega) (by omega) hprev2
        refine ⟨n, [Effect.delay 500, Effect.serialPrintln
            ("...Waiting for WiFi connection (Status: " ++
              toString (p.wifiStatus (sc + 2)) ++ ")")] ++ pre,
          by omega, hn2, hn3, ?_, ?_, ?_, ?_, ?_⟩
        · intro j hj1 hj2
          by_cases hj : j = mc
          · subst hj; exact hle
          · exact hn4 j (by omega) hj2
        · simpa [List.count_cons] using hn5
        · simpa [List.count_cons] using hn6
        · simp only [List.cons_append, List.nil_append, List.count_cons, hn7]
          simp
          omega
        · intro fuel hf
          obtain ⟨f, rfl⟩ : ∃ f, fuel = f + 1 := ⟨fuel - 1, by omega⟩
          rw [waitForWiFi, if_pos (hnc sc), if_neg hngt, if_neg hd, hn8 f (by omega)]
          rfl

theorem jumpToFactory_restarts (q : Platform) :
    (jumpToFactory q).getLast? = some Effect.restart ∧
    (jumpToFactory q).count Effect.restart = 1 ∧
    (jumpToFactory q).count Effect.findFactoryPartition = 1 := by
  unfold jumpToFactory
  split_ifs <;> simp [sendLogMessage, List.count_cons]

/-- C9: connect timeout leads to fallback exactly once.  If the clock advances by at
least 500 ms per pass of the loop and the status never is `WL_CONNECTED`, then
`connectToWiFi` ends after some `n ≤ 31` passes (any fuel of at least `n` gives the
result); pass `n` is the first one whose elapsed time exceeds 15000 ms; the effects before
the timeout log line hold exactly `n` delays of 500 ms, no partition lookup and no
restart; `jumpToFactory` runs then, once, with exactly one partition lookup; and on every
platform (partition found and set, found but not set, not found) `jumpToFactory` ends
with the one restart.  The clock is the device's: `millis()` is a 32-bit counter, and one
pass (a `delay(500)` and a status query) lasts at most `2^32 - 15001` ms, far less than
the 49.7 days the counter takes to wrap. -/
theorem connect_timeout_fallback_once (p : Platform)
    (hadv : ∀ k, p.clock k + 500 ≤ p.clock (k + 1))
    (hmax : ∀ k, p.clock (k + 1) ≤ p.clock k + 4294952295)
    (hnc : ∀ k, p.wifiStatus k ≠ WL_CONNECTED) :
    ∃ (n : Nat) (pre : List Effect),
      1 ≤ n ∧ n ≤ 31 ∧ 15000 < elapsedAt p n ∧
      (∀ j, 1 ≤ j → j < n → elapsedAt p j ≤ 15000) ∧
      (∀ fuel, n ≤ fuel →
        connectToWiFi p fuel =
          some (ConnectOutcome.fellBack,
            pre ++ sendLogMessage "WiFi connection timed out after 15 seconds." ++
              jumpToFactory p)) ∧
      pre.count (Effect.delay 500) = n ∧
      pre.count Effect.findFactoryPartition = 0 ∧ pre.count Effect.restart = 0 ∧
      (pre ++ sendLogMessage "WiFi connection timed out after 15 seconds." ++
        jumpToFactory p).count Effect.findFactoryPartition = 1 ∧
      ∀ q : Platform,
        (jumpToFactory q).getLast? = some Effect.restart ∧
        (jumpToFactory q).count Effect.restart = 1 := by
  obtain ⟨n, pre, h1, h2, h3, h4, h5, h6, h7, h8⟩ :=
    waitForWiFi_falls_back p hadv hmax hnc 30 1 0 (le_refl _) rfl (by simp)
  have hmsg : "WiFi connection timed out after " ++ toString (CONNECT_TIMEOUT_MS / 1000) ++
      " seconds." = "WiFi connection timed out after 15 seconds." := by decide
  rw [hmsg] at h8
  refine ⟨n, sendLogMessage "Setting WiFi mode to Station..." ++
      [Effect.wifiModeSta, Effect.wifiBegin] ++ pre ++ [Effect.delay 500],
    h1, h2, h3, h4, ?_, ?_, ?_, ?_, ?_, fun q => ⟨(jumpToFactory_restarts q).1,
      (jumpToFactory_restarts q).2.1⟩⟩
  · intro fuel hf
    simp only [connectToWiFi, h8 fuel (by omega), Option.map_some', List.append_assoc]
  · simp only [sendLogMessage, List.cons_append, List.nil_append, List.count_cons,
      List.count_append, h7]
    simp
    omega
  · simp only [sendLogMessage, List.cons_append, List.nil_append, List.count_cons,
      List.count_append, h5]
    simp
  · simp only [sendLogMessage, List.cons_append, List.nil_append, List.count_cons,
      List.count_append, h6]
    simp
  · simp only [sendLogMessage, List.cons_append, List.nil_append, List.count_cons,
      List.count_append, h5, (jumpToFactory_restarts p).2.2]
    simp

/-- C9 on `steadyPlatform`, where each pass takes exactly 500 ms. -/
theorem connect_timeout_fallback_once_witness :
    ∃ (n : Nat) (pre : List Effect),
      1 ≤ n ∧ n ≤ 31 ∧ 15000 < elapsedAt steadyPlatform n ∧
      (∀ j, 1 ≤ j → j < n → elapsedAt steadyPlatform j ≤ 15000) ∧
      (∀ fuel, n ≤ fuel →
        connectToWiFi steadyPlatform fuel =
          some (ConnectOutcome.fellBack,
            pre ++ sendLogMessage "WiFi connection timed out after 15 seconds." ++
              jumpToFactory steadyPlatform)) ∧
      pre.count (Effect.delay 500) = n ∧
      pre.count Effect.findFactoryPartition = 0 ∧ pre.count Effect.restart = 0 ∧
      (pre ++ sendLogMessage "WiFi connection timed out after 15 seconds." ++
        jumpToFactory steadyPlatform).count Effect.findFactoryPartition = 1 ∧
      ∀ q : Platform,
        (jumpToFactory q).getLast? = some Effect.restart ∧
        (jumpToFactory q).count Effect.restart = 1 :=
  connect_timeout_fallback_once steadyPlatform
    (fun k => by simp only [steadyPlatform]; omega)
    (fun k => by simp only [steadyPlatform]; omega)
    (fun _ => (by decide : WL_DISCONNECTED ≠ WL_CONNECTED))

/-! ## Unknown single-character commands -/

/-- C11 as stated fails: at `drivingStale` the one-character message `x`, received at
clock value 5000, moves the Last Command Timestamp from 4294967000 to 5000. -/
theorem unknown_command_resets_timer :
    drivingStale.lastCommandTime = 4294967000 ∧
    (webSocketEvent (textCall "x" (Deserialized.error "InvalidInput") 5000)
      drivingStale).1.lastCommandTime = 5000 ∧
    (webSocketEvent (textCall "x" (Deserialized.error "InvalidInput") 5000)
      drivingStale).1 ≠ drivingStale := by
  refine ⟨by decide, by decide, by decide⟩

/-- C11 (amended): for every prior state and every one-character text message whose
character is not `A`, `M` or `S`, `webSocketEvent` leaves the Target Speed Pair, the
Drive Mode, the bridge enable state and all four PWM duties (and every other global)
unchanged, sets the Last Command Timestamp to the clock value read during the call,
and emits no log line and no status broadcast. -/
theorem unknown_command_only_resets_timer (c : WsCall) (s : State)
    (ht : c.type = WStype.TEXT) (hl : c.payload.length = 1)
    (hA : charAt c.payload 0 ≠ 'A') (hM : charAt c.payload 0 ≠ 'M')
    (hS : charAt c.payload 0 ≠ 'S') :
    (webSocketEvent c s).1 = { s with lastCommandTime := c.now } ∧
    (webSocketEvent c s).2 = [] := by
  have hh : handleCarCommand (charAt c.payload 0) s = (s, []) := by
    unfold handleCarCommand
    rw [if_neg hA, if_neg hM, if_neg hS]
  have h : webSocketEvent c s = ({ s with lastCommandTime := c.now }, []) := by
    simp only [webSocketEvent, ht, hl, if_true, hh]
  rw [h]
  exact ⟨rfl, rfl⟩

/-- C11 (amended) at `drivingStale` with the message `x` at clock value 5000. -/
theorem unknown_command_only_resets_timer_witness :
    (webSocketEvent (textCall "x" (Deserialized.error "InvalidInput") 5000) drivingStale).1 =
      { drivingStale with lastCommandTime := 5000 } ∧
    (webSocketEvent (textCall "x" (Deserialized.error "InvalidInput") 5000) drivingStale).2 =
      [] :=
  unknown_command_only_resets_timer
    (textCall "x" (Deserialized.error "InvalidInput") 5000) drivingStale rfl (by decide)
    (by decide) (by decide) (by decide)

end Esp32Car
